import Mathlib

/-!
# Electric Field Hockey — verification of the physics/interaction core

Shallow embedding of `src/main.py` (a pygame game).  Coordinates, velocities
and force components are modelled as real numbers (Python floats); charges,
masses and radii as integers (Python ints, as produced by the sliders and the
charge constructors).  Rendering calls are omitted: they do not touch the
simulation state.
-/

open Classical

noncomputable section

/-- RGB colour triple, as used by pygame. -/
def Color := ℕ × ℕ × ℕ

/-- Embeds `Obstacle` (src/main.py lines 50-56): an axis-aligned rectangle with a
position `[x, y]`, dimensions `[w, h]` and a colour.  `draw` is rendering
only and is not modelled. -/
structure Obstacle where
  position : ℝ × ℝ
  dimensions : ℝ × ℝ
  color : Color

/-- Embeds `StationaryCharge` fields (src/main.py lines 141-153): position, signed
charge, mass, radius, clicked flag and colour. -/
structure StationaryCharge where
  position : ℝ × ℝ
  charge : ℤ
  mass : ℤ
  radius : ℤ
  clicked : Bool
  color : Color

/-- Embeds `StationaryCharge.__init__` (src/main.py lines 144-153): mass is the
constant 1, radius 10, clicked starts true, colour red for positive and blue
for negative charge.  (Python leaves `color` unassigned when
`charge_val = 0`; the game only constructs charges with value ±1, and we pick
black for that unreachable case.) -/
def StationaryCharge.init (charge_val : ℤ) (pos : ℝ × ℝ) : StationaryCharge where
  position := pos
  charge := charge_val
  mass := 1
  radius := 10
  clicked := true
  color := if charge_val > 0 then (255, 0, 0) else if charge_val < 0 then (0, 0, 255) else (0, 0, 0)

/-- Embeds `DynamicCharge` (src/main.py lines 179-186): a `StationaryCharge` plus
velocity and acceleration vectors. -/
structure DynamicCharge extends StationaryCharge where
  velocity : ℝ × ℝ
  acceleration : ℝ × ℝ

/-- Screen dimensions `SCREEN_SIZE = [1200, 600]` (src/main.py line 321). -/
def SCREEN_SIZE : ℤ × ℤ := (1200, 600)

/-- Embeds `DynamicCharge.__init__` (src/main.py lines 182-186): built through
`StationaryCharge.__init__(1, [50, SCREEN_SIZE[1] // 2])`, then zero velocity
and acceleration, black colour. -/
def DynamicCharge.init : DynamicCharge where
  toStationaryCharge := { StationaryCharge.init 1 (50, 300) with color := (0, 0, 0) }
  velocity := (0, 0)
  acceleration := (0, 0)

/-- Embeds `DynamicCharge.move` (src/main.py lines 193-199).  The Python body mutates
the particle field by field, in this order: both position components are
incremented by the velocity, then both velocity components by the
acceleration, then the acceleration is overwritten by `force / mass`.  The
sequential `let`s mirror that mutation order: each step reads the state left
by the previous one. -/
def DynamicCharge.move (p : DynamicCharge) (force : ℝ × ℝ) : DynamicCharge :=
  let p1 := { p with position := (p.position.1 + p.velocity.1, p.position.2 + p.velocity.2) }
  let p2 := { p1 with velocity := (p1.velocity.1 + p1.acceleration.1, p1.velocity.2 + p1.acceleration.2) }
  { p2 with acceleration := (force.1 / (p2.mass : ℝ), force.2 / (p2.mass : ℝ)) }

/-- Embeds `DynamicCharge.detect_collision` (src/main.py lines 206-210): inclusive
AABB test between the particle's bounding square and the rectangle. -/
def DynamicCharge.detect_collision (p : DynamicCharge) (obstacle : Obstacle) : Prop :=
  (p.position.1 + (p.radius : ℝ) ≥ obstacle.position.1 ∧
    p.position.1 - (p.radius : ℝ) ≤ obstacle.position.1 + obstacle.dimensions.1) ∧
  (p.position.2 + (p.radius : ℝ) ≥ obstacle.position.2 ∧
    p.position.2 - (p.radius : ℝ) ≤ obstacle.position.2 + obstacle.dimensions.2)

/-- Two closed intervals `[lo1, hi1]` and `[lo2, hi2]` overlap, with inclusive
bounds.  This is the specification-side notion of one-axis AABB overlap,
written from the spec's words, to be compared with `detect_collision`. -/
def intervalsOverlap (lo1 hi1 lo2 hi2 : ℝ) : Prop :=
  lo1 ≤ hi2 ∧ lo2 ≤ hi1

/-- Embeds `hyp_calc` (src/main.py lines 227-228): Euclidean distance between two
points, `((x1 - x2)^2 + (y1 - y2)^2) ** 0.5`. -/
def hyp_calc (vector1 vector2 : ℝ × ℝ) : ℝ :=
  Real.sqrt ((vector1.1 - vector2.1) ^ 2 + (vector1.2 - vector2.2) ^ 2)

/-- Embeds `angle_calc` (src/main.py lines 236-237): the arcsine of the vertical
separation over the distance. -/
def angle_calc (vector1 vector2 : ℝ × ℝ) : ℝ :=
  Real.arcsin ((vector1.2 - vector2.2) / hyp_calc vector1 vector2)

/-- Embeds `electrostatic_force_calc` (src/main.py lines 245-253): magnitude
`k·|q1|·|q2| / d²` with `k = 20`, where `d` is floored at
`proximity * particle1.radius = 4 * radius`. -/
def electrostatic_force_calc (particle1 particle2 : StationaryCharge) : ℝ :=
  let k : ℝ := 20
  let proximity : ℝ := 4
  let charge_squared := k * |(particle1.charge : ℝ)| * |(particle2.charge : ℝ)|
  let distance := hyp_calc particle1.position particle2.position
  if distance < proximity * (particle1.radius : ℝ) then
    charge_squared / (proximity * (particle1.radius : ℝ)) ^ 2
  else
    charge_squared / distance ^ 2

/-- Embeds `gravitational_force_calc` (src/main.py lines 260-268): magnitude
`g·m1·m2 / d²` with `g = 0.02`, the same soft-core floor on `d`. -/
def gravitational_force_calc (particle1 particle2 : StationaryCharge) : ℝ :=
  let g : ℝ := 0.02
  let proximity : ℝ := 4
  let mass_squared := g * (particle1.mass : ℝ) * (particle2.mass : ℝ)
  let distance := hyp_calc particle1.position particle2.position
  if distance < proximity * (particle1.radius : ℝ) then
    mass_squared / (proximity * (particle1.radius : ℝ)) ^ 2
  else
    mass_squared / distance ^ 2

/-- The force-type string for the gravitational call site (src/main.py line 422). -/
def gravitationalType : String := "gravitational"

/-- The force-type string for the electrostatic call site (src/main.py line 423). -/
def electrostaticType : String := "electrostatic"

/-- The attraction/repulsion decision taken inside the aggregation loop
(src/main.py lines 279-286): `attraction` starts `False`, is set `True` for
the gravitational branch, and for the electrostatic branch is
`not ((pq > 0 and cq > 0) or (pq < 0 and cq < 0))`. -/
def attraction_flag (force_type : String) (primary_charge charge : StationaryCharge) : Prop :=
  if force_type = "gravitational" then True
  else if force_type = "electrostatic" then
    ¬ ((primary_charge.charge > 0 ∧ charge.charge > 0) ∨
       (primary_charge.charge < 0 ∧ charge.charge < 0))
  else False

/-- One stationary charge's contribution to the running total inside
`net_force_calc` (src/main.py lines 277-313): the angle to the primary
charge, the magnitude from the relevant force function (0 for an
unrecognised type), then the axis-wise resolution — each component's sign is
decided independently by comparing the primary charge's coordinate with the
stationary charge's, flipped between the attraction and repulsion branches.
The `pygame.draw.line` call (line 314) is rendering only. -/
def contribution (force_type : String) (primary_charge : DynamicCharge)
    (charge : StationaryCharge) : ℝ × ℝ :=
  let angle := angle_calc primary_charge.position charge.position
  let magnitude : ℝ :=
    if force_type = "gravitational" then
      gravitational_force_calc primary_charge.toStationaryCharge charge
    else if force_type = "electrostatic" then
      electrostatic_force_calc primary_charge.toStationaryCharge charge
    else 0
  if attraction_flag force_type primary_charge.toStationaryCharge charge then
    ((if primary_charge.position.1 > charge.position.1 then
        -|Real.cos angle * magnitude| else |Real.cos angle * magnitude|),
     (if primary_charge.position.2 > charge.position.2 then
        -|Real.sin angle * magnitude| else |Real.sin angle * magnitude|))
  else
    ((if primary_charge.position.1 > charge.position.1 then
        |Real.cos angle * magnitude| else -|Real.cos angle * magnitude|),
     (if primary_charge.position.2 > charge.position.2 then
        |Real.sin angle * magnitude| else -|Real.sin angle * magnitude|))

/-- Embeds `net_force_calc` (src/main.py lines 275-315): starts from `total = [0, 0]`
and accumulates each stationary charge's contribution in list order.  The
globals `primary_charge` and `charges` are passed explicitly. -/
def net_force_calc (force_type : String) (primary_charge : DynamicCharge)
    (charges : List StationaryCharge) : ℝ × ℝ :=
  charges.foldl
    (fun total charge =>
      (total.1 + (contribution force_type primary_charge charge).1,
       total.2 + (contribution force_type primary_charge charge).2))
    (0, 0)

/-- Python's built-in `round` on a rational value: nearest integer, with
ties going to the even neighbour (banker's rounding). -/
def pythonRound (x : ℚ) : ℤ :=
  if x - (⌊x⌋ : ℚ) < 1 / 2 then ⌊x⌋
  else if 1 / 2 < x - (⌊x⌋ : ℚ) then ⌊x⌋ + 1
  else if ⌊x⌋ % 2 = 0 then ⌊x⌋ else ⌊x⌋ + 1

/-- Python's `range(start, stop[, step])` as stored in a slider's `domain`
field; `Slider.get_val` only reads `start` and `stop`. -/
structure PyRange where
  start : ℤ
  stop : ℤ
  step : ℤ

/-- Embeds `Slider` fields (src/main.py lines 100-107): the knob's
`current_position` starts at the track's left end, `clicked` false,
`radius` 10. -/
structure Slider where
  label : String
  position : ℤ × ℤ
  width : ℤ
  current_position : ℤ
  domain : PyRange
  clicked : Bool
  radius : ℤ

/-- Embeds `Slider.get_val` (src/main.py lines 113-115):
`round((stop - start) * (cur - x0) / width) + start`, computed with true
division. -/
def Slider.get_val (s : Slider) : ℤ :=
  pythonRound (((s.domain.stop - s.domain.start : ℤ) : ℚ) *
    ((s.current_position - s.position.1 : ℤ) : ℚ) / (s.width : ℚ)) + s.domain.start

/-- Embeds `level_slider` (src/main.py line 335): track from
`SCREEN_SIZE[0] // 2 - 75 = 525`, width 100, domain `range(0, 3)`. -/
def level_slider : Slider where
  label := "level"
  position := (525, 200)
  width := 100
  current_position := 525
  domain := ⟨0, 3, 1⟩
  clicked := false
  radius := 10

/-- Embeds `mass_slider` (src/main.py line 336): domain `range(1, 100, 1)`. -/
def mass_slider : Slider where
  label := "mass"
  position := (315, 650)
  width := 100
  current_position := 315
  domain := ⟨1, 100, 1⟩
  clicked := false
  radius := 10

/-- Embeds `charge_slider` (src/main.py line 337): domain `range(-25, 25, 1)`. -/
def charge_slider : Slider where
  label := "charge"
  position := (500, 650)
  width := 100
  current_position := 500
  domain := ⟨-25, 25, 1⟩
  clicked := false
  radius := 10

/-- The goal rectangle (src/main.py line 344):
`Obstacle(SCREEN_SIZE[0] - 50, SCREEN_SIZE[1] // 2 - 30, 20, 60, ...)`. -/
def goal : Obstacle := ⟨(1150, 270), (20, 60), (150, 0, 150)⟩

/-- The per-level obstacle lists (src/main.py lines 348-356), with the
integer divisions over `SCREEN_SIZE = [1200, 600]` evaluated:
`3 * 1200 // 7 = 514` and so on. -/
def levels : List (List Obstacle) :=
  [[],
   [⟨(300, 225), (20, 150), (0, 0, 0)⟩],
   [⟨(400, 75), (20, 150), (0, 0, 0)⟩, ⟨(800, 225), (20, 150), (0, 0, 0)⟩],
   [⟨(240, 200), (20, 400), (0, 0, 0)⟩, ⟨(514, 0), (20, 300), (0, 0, 0)⟩,
    ⟨(900, 200), (20, 400), (0, 0, 0)⟩]]

/-- The obstacle pass of the game loop (src/main.py lines 410-413): iterate
the active level's obstacles and clear `run` on any collision with the
primary charge (whose position does not change inside this loop). -/
def obstaclePass (primary_charge : DynamicCharge) (obstacles : List Obstacle)
    (run : Bool) : Bool :=
  obstacles.foldl (fun r obs => if primary_charge.detect_collision obs then false else r) run

/-- The charge-removal pass of the game loop (src/main.py lines 416-419):
drop charges that are below the play field (`position[1] > SCREEN_SIZE[1]`)
and not currently held.  Python removes from the list it is iterating by
index, so the element that slides into a removed slot is never examined;
the middle recursion arm mirrors that skip. -/
def chargesPass : List StationaryCharge → List StationaryCharge
  | [] => []
  | [c] => if c.position.2 > (SCREEN_SIZE.2 : ℝ) ∧ c.clicked = false then [] else [c]
  | c :: d :: rest =>
      if c.position.2 > (SCREEN_SIZE.2 : ℝ) ∧ c.clicked = false then d :: chargesPass rest
      else c :: chargesPass (d :: rest)

/-- The mutable state read and written by one pass of the game-screen branch
of the main loop: the run flag, the primary charge, the placed charges, the
active level index, and the two sliders feeding mass and charge. -/
structure PlayState where
  run : Bool
  primary_charge : DynamicCharge
  charges : List StationaryCharge
  active_level : ℕ
  mass_slider : Slider
  charge_slider : Slider

/-- One evaluation of the game-screen simulation portion of the main loop
(src/main.py lines 396-437), rendering omitted and the event handler (lines
439-479, which reacts to external input) out of scope: the obstacle pass
clears `run` on an obstacle collision (lines 410-413); the charge pass drops
off-screen unheld charges (lines 416-419); if `run` survived, both net
forces are computed and the particle moved by their sum (lines 421-424);
the sliders overwrite mass and charge (lines 433-434); finally a goal
collision clears `run` (lines 436-437). -/
def evalFrame (s : PlayState) : PlayState :=
  let run1 := obstaclePass s.primary_charge (levels.getD s.active_level []) s.run
  let charges1 := chargesPass s.charges
  let p1 :=
    if run1 then
      let g_force := net_force_calc gravitationalType s.primary_charge charges1
      let e_force := net_force_calc electrostaticType s.primary_charge charges1
      s.primary_charge.move (g_force.1 + e_force.1, g_force.2 + e_force.2)
    else s.primary_charge
  let p2 := { p1 with mass := s.mass_slider.get_val, charge := s.charge_slider.get_val }
  let run2 := if p2.detect_collision goal then false else run1
  { s with run := run2, primary_charge := p2, charges := charges1 }

/-- A concrete game-screen state used to evaluate `evalFrame`: the run flag
is set, no charges are placed, level 0 has no obstacles, and the primary
charge rests touching the goal mouth at (1160, 300). -/
def sampleGoalState : PlayState where
  run := true
  primary_charge := { DynamicCharge.init with position := (1160, 300) }
  charges := []
  active_level := 0
  mass_slider := mass_slider
  charge_slider := charge_slider

/-- Claim C1: one integration step advances position by the previous velocity,
then velocity by the previous acceleration, then sets acceleration to the new
force divided by the mass; the force argument has no influence on the
position or the velocity produced by the same step. -/
theorem move_euler_order (p : DynamicCharge) (force : ℝ × ℝ) :
    (p.move force).position = (p.position.1 + p.velocity.1, p.position.2 + p.velocity.2) ∧
    (p.move force).velocity = (p.velocity.1 + p.acceleration.1, p.velocity.2 + p.acceleration.2) ∧
    (p.move force).acceleration = (force.1 / (p.mass : ℝ), force.2 / (p.mass : ℝ)) ∧
    ∀ force' : ℝ × ℝ, (p.move force').position = (p.move force).position ∧
      (p.move force').velocity = (p.move force).velocity := by
  refine ⟨rfl, rfl, rfl, fun force' => ⟨rfl, rfl⟩⟩

/-- Claim C10: one integration step changes only position, velocity and
acceleration; charge, mass, radius, colour and the clicked flag are
untouched. -/
theorem move_frame_effect (p : DynamicCharge) (force : ℝ × ℝ) :
    (p.move force).charge = p.charge ∧ (p.move force).mass = p.mass ∧
    (p.move force).radius = p.radius ∧ (p.move force).color = p.color ∧
    (p.move force).clicked = p.clicked :=
  ⟨rfl, rfl, rfl, rfl, rfl⟩

/-- Claim C5: the collision test holds exactly when the particle's bounding
square (centre ± radius) overlaps the rectangle's bounding box on both axes
with inclusive bounds; a particle of radius 10 at (100, 100) collides with
the rectangle at (95, 95) of size (20, 20), while the same particle at
(200, 200) does not. -/
theorem detect_collision_iff_overlap :
    (∀ (p : DynamicCharge) (o : Obstacle),
      p.detect_collision o ↔
        intervalsOverlap (p.position.1 - (p.radius : ℝ)) (p.position.1 + (p.radius : ℝ))
          o.position.1 (o.position.1 + o.dimensions.1) ∧
        intervalsOverlap (p.position.2 - (p.radius : ℝ)) (p.position.2 + (p.radius : ℝ))
          o.position.2 (o.position.2 + o.dimensions.2)) ∧
    ({ DynamicCharge.init with position := (100, 100) }).detect_collision
      ⟨(95, 95), (20, 20), (0, 0, 0)⟩ ∧
    ¬ ({ DynamicCharge.init with position := (200, 200) }).detect_collision
      ⟨(95, 95), (20, 20), (0, 0, 0)⟩ := by
  refine ⟨fun p o => ?_, ?_, ?_⟩
  · unfold DynamicCharge.detect_collision intervalsOverlap
    constructor
    · rintro ⟨⟨hx1, hx2⟩, ⟨hy1, hy2⟩⟩
      exact ⟨⟨hx2, hx1⟩, ⟨hy2, hy1⟩⟩
    · rintro ⟨⟨hx2, hx1⟩, ⟨hy2, hy1⟩⟩
      exact ⟨⟨hx1, hx2⟩, ⟨hy1, hy2⟩⟩
  · unfold DynamicCharge.detect_collision
    norm_num [DynamicCharge.init, StationaryCharge.init]
  · unfold DynamicCharge.detect_collision
    norm_num [DynamicCharge.init, StationaryCharge.init]

/-- The distance function is symmetric in its two points. -/
theorem hyp_calc_comm (a b : ℝ × ℝ) : hyp_calc a b = hyp_calc b a := by
  unfold hyp_calc
  rw [show (a.1 - b.1) ^ 2 + (a.2 - b.2) ^ 2 = (b.1 - a.1) ^ 2 + (b.2 - a.2) ^ 2 by ring]

/-- Unfolding equation for the electrostatic magnitude. -/
theorem electrostatic_force_calc_eq (p1 p2 : StationaryCharge) :
    electrostatic_force_calc p1 p2 =
      if hyp_calc p1.position p2.position < 4 * (p1.radius : ℝ) then
        20 * |(p1.charge : ℝ)| * |(p2.charge : ℝ)| / (4 * (p1.radius : ℝ)) ^ 2
      else
        20 * |(p1.charge : ℝ)| * |(p2.charge : ℝ)| / (hyp_calc p1.position p2.position) ^ 2 :=
  rfl

/-- Unfolding equation for the gravitational magnitude. -/
theorem gravitational_force_calc_eq (p1 p2 : StationaryCharge) :
    gravitational_force_calc p1 p2 =
      if hyp_calc p1.position p2.position < 4 * (p1.radius : ℝ) then
        0.02 * (p1.mass : ℝ) * (p2.mass : ℝ) / (4 * (p1.radius : ℝ)) ^ 2
      else
        0.02 * (p1.mass : ℝ) * (p2.mass : ℝ) / (hyp_calc p1.position p2.position) ^ 2 :=
  rfl

/-- Claim C3: below the soft-core threshold `4 × radius` both force magnitudes
are the constant value taken at the threshold distance, so they do not grow
as the separation shrinks further; at or above the threshold they are
`20·|q1|·|q2|/d²` and `0.02·m1·m2/d²`. -/
theorem force_softcore_clamp (p1 p2 : StationaryCharge) :
    (hyp_calc p1.position p2.position < 4 * (p1.radius : ℝ) →
      electrostatic_force_calc p1 p2 =
        20 * |(p1.charge : ℝ)| * |(p2.charge : ℝ)| / (4 * (p1.radius : ℝ)) ^ 2 ∧
      gravitational_force_calc p1 p2 =
        0.02 * (p1.mass : ℝ) * (p2.mass : ℝ) / (4 * (p1.radius : ℝ)) ^ 2) ∧
    (4 * (p1.radius : ℝ) ≤ hyp_calc p1.position p2.position →
      electrostatic_force_calc p1 p2 =
        20 * |(p1.charge : ℝ)| * |(p2.charge : ℝ)| / (hyp_calc p1.position p2.position) ^ 2 ∧
      gravitational_force_calc p1 p2 =
        0.02 * (p1.mass : ℝ) * (p2.mass : ℝ) / (hyp_calc p1.position p2.position) ^ 2) := by
  unfold electrostatic_force_calc gravitational_force_calc
  constructor
  · intro h
    rw [if_pos h, if_pos h]
    exact ⟨rfl, rfl⟩
  · intro h
    rw [if_neg (not_lt.mpr h), if_neg (not_lt.mpr h)]
    exact ⟨rfl, rfl⟩

/-- Claim C3 witness: two charges of values 2 and −3 placed 30 apart are inside
the soft-core region (threshold 40), and both magnitudes take the clamped
form there. -/
theorem force_softcore_clamp_witness :
    hyp_calc (StationaryCharge.init 2 (0, 0)).position (StationaryCharge.init (-3) (30, 0)).position
        < 4 * ((StationaryCharge.init 2 (0, 0)).radius : ℝ) ∧
      (electrostatic_force_calc (StationaryCharge.init 2 (0, 0)) (StationaryCharge.init (-3) (30, 0)) =
        20 * |((StationaryCharge.init 2 (0, 0)).charge : ℝ)| *
          |((StationaryCharge.init (-3) (30, 0)).charge : ℝ)| /
          (4 * ((StationaryCharge.init 2 (0, 0)).radius : ℝ)) ^ 2 ∧
      gravitational_force_calc (StationaryCharge.init 2 (0, 0)) (StationaryCharge.init (-3) (30, 0)) =
        0.02 * ((StationaryCharge.init 2 (0, 0)).mass : ℝ) *
          ((StationaryCharge.init (-3) (30, 0)).mass : ℝ) /
          (4 * ((StationaryCharge.init 2 (0, 0)).radius : ℝ)) ^ 2) := by
  have hd : hyp_calc ((0 : ℝ), (0 : ℝ)) ((30 : ℝ), (0 : ℝ)) = 30 := by
    unfold hyp_calc
    rw [show (((0 : ℝ), (0 : ℝ)).1 - ((30 : ℝ), (0 : ℝ)).1) ^ 2 +
        (((0 : ℝ), (0 : ℝ)).2 - ((30 : ℝ), (0 : ℝ)).2) ^ 2 = (30 : ℝ) ^ 2 by norm_num]
    exact Real.sqrt_sq (by norm_num)
  have h : hyp_calc (StationaryCharge.init 2 (0, 0)).position
      (StationaryCharge.init (-3) (30, 0)).position
      < 4 * ((StationaryCharge.init 2 (0, 0)).radius : ℝ) := by
    show hyp_calc ((0 : ℝ), (0 : ℝ)) ((30 : ℝ), (0 : ℝ)) < 4 * ((10 : ℤ) : ℝ)
    rw [hd]; norm_num
  exact ⟨h, (force_softcore_clamp _ _).1 h⟩

/-- Claim C7: for charges of equal radius (as all charges built by the
constructor are, radius 10) the electrostatic and gravitational magnitude
functions are symmetric in their two arguments. -/
theorem force_calc_symm (p1 p2 : StationaryCharge) (hr : p1.radius = p2.radius) :
    electrostatic_force_calc p1 p2 = electrostatic_force_calc p2 p1 ∧
    gravitational_force_calc p1 p2 = gravitational_force_calc p2 p1 := by
  rw [electrostatic_force_calc_eq, electrostatic_force_calc_eq,
    gravitational_force_calc_eq, gravitational_force_calc_eq,
    hyp_calc_comm p1.position p2.position, hr]
  constructor <;> · split_ifs with h <;> ring

/-- Claim C7 witness: the two constructor-built charges of values 1 and −1 at
(0,0) and (3,4) have equal radii and symmetric force magnitudes. -/
theorem force_calc_symm_witness :
    (StationaryCharge.init 1 (0, 0)).radius = (StationaryCharge.init (-1) (3, 4)).radius ∧
    (electrostatic_force_calc (StationaryCharge.init 1 (0, 0)) (StationaryCharge.init (-1) (3, 4)) =
      electrostatic_force_calc (StationaryCharge.init (-1) (3, 4)) (StationaryCharge.init 1 (0, 0)) ∧
    gravitational_force_calc (StationaryCharge.init 1 (0, 0)) (StationaryCharge.init (-1) (3, 4)) =
      gravitational_force_calc (StationaryCharge.init (-1) (3, 4)) (StationaryCharge.init 1 (0, 0))) :=
  ⟨rfl, force_calc_symm _ _ rfl⟩

/-- Claim C8: for distinct points the argument handed to `asin` lies in
`[-1, 1]` and the sine of the computed angle is exactly
`(a.y - b.y) / distance(a, b)`; for coincident points the distance is 0, so
the Python division is a division by zero and `a ≠ b` is a genuine
precondition. -/
theorem angle_calc_spec (a b : ℝ × ℝ) :
    (a ≠ b →
      |(a.2 - b.2) / hyp_calc a b| ≤ 1 ∧
      Real.sin (angle_calc a b) = (a.2 - b.2) / hyp_calc a b) ∧
    (a = b → hyp_calc a b = 0) := by
  constructor
  · intro hne
    have hxy : a.1 ≠ b.1 ∨ a.2 ≠ b.2 := by
      by_contra hc
      push_neg at hc
      exact hne (Prod.ext hc.1 hc.2)
    have hpos : 0 < (a.1 - b.1) ^ 2 + (a.2 - b.2) ^ 2 := by
      rcases hxy with h1 | h1
      · have := sq_pos_of_ne_zero (sub_ne_zero.mpr h1)
        nlinarith [sq_nonneg (a.2 - b.2)]
      · have := sq_pos_of_ne_zero (sub_ne_zero.mpr h1)
        nlinarith [sq_nonneg (a.1 - b.1)]
    have hd : 0 < hyp_calc a b := Real.sqrt_pos.mpr hpos
    have habs : |a.2 - b.2| ≤ hyp_calc a b := by
      rw [← Real.sqrt_sq_eq_abs]
      exact Real.sqrt_le_sqrt (by nlinarith [sq_nonneg (a.1 - b.1)])
    have hratio : |(a.2 - b.2) / hyp_calc a b| ≤ 1 := by
      rw [abs_div, abs_of_pos hd]
      exact (div_le_one hd).mpr habs
    refine ⟨hratio, ?_⟩
    have hle := abs_le.mp hratio
    exact Real.sin_arcsin hle.1 hle.2
  · intro he
    subst he
    unfold hyp_calc
    simp

/-- Claim C8 witness: the points (0,0) and (3,4) are distinct, the asin argument
is within `[-1, 1]`, and the sine of the angle equals the ratio there. -/
theorem angle_calc_spec_witness :
    (((0 : ℝ), (0 : ℝ)) ≠ ((3 : ℝ), (4 : ℝ))) ∧
    (|(((0 : ℝ), (0 : ℝ)).2 - ((3 : ℝ), (4 : ℝ)).2) / hyp_calc (0, 0) (3, 4)| ≤ 1 ∧
      Real.sin (angle_calc (0, 0) (3, 4)) =
        (((0 : ℝ), (0 : ℝ)).2 - ((3 : ℝ), (4 : ℝ)).2) / hyp_calc (0, 0) (3, 4)) := by
  have hne : (((0 : ℝ), (0 : ℝ)) : ℝ × ℝ) ≠ ((3 : ℝ), (4 : ℝ)) := by
    intro hc
    have h0 : (0 : ℝ) = 3 := congrArg Prod.fst hc
    norm_num at h0
  exact ⟨hne, (angle_calc_spec _ _).1 hne⟩

/-- Claim C4: inside the net-force aggregation the gravitational branch marks
every stationary charge as attracting, and for nonzero charges the
electrostatic branch marks a charge as attracting exactly when the primary
charge's sign and the stationary charge's sign differ. -/
theorem attraction_flag_spec (primary_charge charge : StationaryCharge) :
    attraction_flag gravitationalType primary_charge charge ∧
    (primary_charge.charge ≠ 0 → charge.charge ≠ 0 →
      (attraction_flag electrostaticType primary_charge charge ↔
        (primary_charge.charge > 0 ∧ charge.charge < 0) ∨
        (primary_charge.charge < 0 ∧ charge.charge > 0))) := by
  constructor
  · unfold attraction_flag gravitationalType
    simp
  · intro h1 h2
    unfold attraction_flag electrostaticType
    rw [if_neg (by decide), if_pos rfl]
    omega

/-- Claim C4 witness: for the constructor-built charges of values 3 and −1 both
parts hold: the gravitational branch attracts, and the electrostatic branch
attracts because the signs differ. -/
theorem attraction_flag_spec_witness :
    ((StationaryCharge.init 3 (0, 0)).charge ≠ 0 ∧
      (StationaryCharge.init (-1) (5, 5)).charge ≠ 0) ∧
    (attraction_flag gravitationalType (StationaryCharge.init 3 (0, 0))
        (StationaryCharge.init (-1) (5, 5)) ∧
      (attraction_flag electrostaticType (StationaryCharge.init 3 (0, 0))
          (StationaryCharge.init (-1) (5, 5)) ↔
        ((StationaryCharge.init 3 (0, 0)).charge > 0 ∧
            (StationaryCharge.init (-1) (5, 5)).charge < 0) ∨
        ((StationaryCharge.init 3 (0, 0)).charge < 0 ∧
            (StationaryCharge.init (-1) (5, 5)).charge > 0))) :=
  ⟨⟨by decide, by decide⟩,
    ⟨(attraction_flag_spec _ _).1,
      (attraction_flag_spec _ _).2 (by decide) (by decide)⟩⟩

/-- Claim C6: net-force aggregation over an empty charge list returns the zero
vector, for the gravitational and for the electrostatic force type. -/
theorem net_force_calc_empty (primary_charge : DynamicCharge) :
    net_force_calc gravitationalType primary_charge [] = (0, 0) ∧
    net_force_calc electrostaticType primary_charge [] = (0, 0) :=
  ⟨rfl, rfl⟩

/-- Claim C2: if the primary charge collides with the goal at the goal check of
a frame whose incoming run flag was set, the frame leaves the run flag
cleared — whatever the obstacle pass did earlier in the frame. -/
theorem goal_collision_stops_run (s : PlayState) (hrun : s.run = true)
    (hgoal : (evalFrame s).primary_charge.detect_collision goal) :
    (evalFrame s).run = false := by
  simp only [evalFrame] at hgoal ⊢
  rw [if_pos hgoal]

/-- Claim C2 witness: in the sample state the run flag is set, the frame's
outgoing particle touches the goal, and the frame clears the run flag. -/
theorem goal_collision_stops_run_witness :
    sampleGoalState.run = true ∧
    (evalFrame sampleGoalState).primary_charge.detect_collision goal ∧
    (evalFrame sampleGoalState).run = false := by
  have h1 : sampleGoalState.run = true := rfl
  have h2 : (evalFrame sampleGoalState).primary_charge.detect_collision goal := by
    simp only [evalFrame, sampleGoalState, obstaclePass, chargesPass, levels,
      List.getD, List.foldl, net_force_calc, DynamicCharge.move,
      DynamicCharge.detect_collision, DynamicCharge.init, StationaryCharge.init, goal,
      if_true]
    norm_num
  exact ⟨h1, h2, goal_collision_stops_run _ h1 h2⟩

/-- Any value of `pythonRound` is the floor or the floor plus one. -/
theorem pythonRound_bounds (x : ℚ) : ⌊x⌋ ≤ pythonRound x ∧ pythonRound x ≤ ⌊x⌋ + 1 := by
  unfold pythonRound
  split_ifs <;> omega

/-- The function `pythonRound` never exceeds an integer upper bound of its argument. -/
theorem pythonRound_le (x : ℚ) (M : ℤ) (h : x ≤ M) : pythonRound x ≤ M := by
  have hfl : ⌊x⌋ ≤ M := by
    have := Int.floor_le_floor h
    rwa [Int.floor_intCast] at this
  rcases eq_or_lt_of_le hfl with he | hlt
  · have hxle : x ≤ (⌊x⌋ : ℚ) := by
      rw [he]
      exact_mod_cast h
    have hx : x - (⌊x⌋ : ℚ) < 1 / 2 := by linarith
    unfold pythonRound
    rw [if_pos hx]
    exact hfl
  · have := (pythonRound_bounds x).2
    omega

/-- The function `pythonRound` respects an integer lower bound of its argument. -/
theorem pythonRound_ge (x : ℚ) (m : ℤ) (h : (m : ℚ) ≤ x) : m ≤ pythonRound x := by
  have hfl : m ≤ ⌊x⌋ := Int.le_floor.mpr h
  have := (pythonRound_bounds x).1
  omega

/-- Claim C9: when the knob lies inside the track, `get_val` lands in
`[domain.start, domain.stop]`; for a slider with domain `range(0, 3)` — the
level slider — the value is therefore a valid index into the 4-entry
`levels` table. -/
theorem slider_get_val_in_domain (s : Slider) (hd : s.domain.start ≤ s.domain.stop)
    (hw : 0 < s.width) (h1 : s.position.1 ≤ s.current_position)
    (h2 : s.current_position ≤ s.position.1 + s.width) :
    s.domain.start ≤ s.get_val ∧ s.get_val ≤ s.domain.stop ∧
    (s.domain.start = 0 → s.domain.stop = 3 → (s.get_val).toNat < levels.length) := by
  set x : ℚ := ((s.domain.stop - s.domain.start : ℤ) : ℚ) *
    ((s.current_position - s.position.1 : ℤ) : ℚ) / (s.width : ℚ) with hx
  have hwq : (0 : ℚ) < (s.width : ℚ) := by exact_mod_cast hw
  have hnum1 : (0 : ℚ) ≤ ((s.domain.stop - s.domain.start : ℤ) : ℚ) := by
    have : (0 : ℤ) ≤ s.domain.stop - s.domain.start := by omega
    exact_mod_cast this
  have hnum2 : (0 : ℚ) ≤ ((s.current_position - s.position.1 : ℤ) : ℚ) := by
    have : (0 : ℤ) ≤ s.current_position - s.position.1 := by omega
    exact_mod_cast this
  have hx0 : (0 : ℚ) ≤ x := by
    rw [hx]
    exact div_nonneg (mul_nonneg hnum1 hnum2) hwq.le
  have hxM : x ≤ ((s.domain.stop - s.domain.start : ℤ) : ℚ) := by
    rw [hx, div_le_iff₀ hwq]
    have hcw : ((s.current_position - s.position.1 : ℤ) : ℚ) ≤ (s.width : ℚ) := by
      have : s.current_position - s.position.1 ≤ s.width := by omega
      exact_mod_cast this
    calc ((s.domain.stop - s.domain.start : ℤ) : ℚ) *
          ((s.current_position - s.position.1 : ℤ) : ℚ)
        ≤ ((s.domain.stop - s.domain.start : ℤ) : ℚ) * (s.width : ℚ) :=
          mul_le_mul_of_nonneg_left hcw hnum1
      _ = ((s.domain.stop - s.domain.start : ℤ) : ℚ) * (s.width : ℚ) := rfl
  have hlo : 0 ≤ pythonRound x := pythonRound_ge x 0 (by exact_mod_cast hx0)
  have hhi : pythonRound x ≤ s.domain.stop - s.domain.start := pythonRound_le x _ hxM
  unfold Slider.get_val
  rw [← hx]
  refine ⟨by omega, by omega, fun hs0 hs3 => ?_⟩
  have hlen : levels.length = 4 := rfl
  rw [hlen]
  omega

/-- Claim C9 witness: the level slider with its knob dragged to x-coordinate 600
(inside its track 525..625) satisfies every hypothesis and yields a value in
`[0, 3]`, below the length of the levels table. -/
theorem slider_get_val_in_domain_witness :
    (({ level_slider with current_position := 600 } : Slider).domain.start ≤
        ({ level_slider with current_position := 600 } : Slider).domain.stop ∧
      0 < ({ level_slider with current_position := 600 } : Slider).width ∧
      ({ level_slider with current_position := 600 } : Slider).position.1 ≤
        ({ level_slider with current_position := 600 } : Slider).current_position ∧
      ({ level_slider with current_position := 600 } : Slider).current_position ≤
        ({ level_slider with current_position := 600 } : Slider).position.1 +
          ({ level_slider with current_position := 600 } : Slider).width) ∧
    (({ level_slider with current_position := 600 } : Slider).domain.start ≤
        ({ level_slider with current_position := 600 } : Slider).get_val ∧
      ({ level_slider with current_position := 600 } : Slider).get_val ≤
        ({ level_slider with current_position := 600 } : Slider).domain.stop ∧
      (({ level_slider with current_position := 600 } : Slider).domain.start = 0 →
        ({ level_slider with current_position := 600 } : Slider).domain.stop = 3 →
        (({ level_slider with current_position := 600 } : Slider).get_val).toNat <
          levels.length)) :=
  ⟨⟨by decide, by decide, by decide, by decide⟩,
    slider_get_val_in_domain _ (by decide) (by decide) (by decide) (by decide)⟩

end
